import Mathlib

set_option maxHeartbeats 1000000

/-- A JavaScript value that can occur as a todo `id` or as a parsed path
parameter in this service: the seeded record stores the string `"123"`,
records created through the API store numbers (`Int`), and `parseInt` of a
non-numeric path parameter yields the not-a-number sentinel. -/
inductive JsIdVal where
  | int (n : Int)
  | str (s : String)
  | nan
  deriving DecidableEq, Repr

/-- JavaScript strict equality (`===`) on id values: numbers compare by
value, strings by contents, `NaN` equals nothing (not even itself), and a
string is never strictly equal to a number. -/
def jsStrictEq : JsIdVal → JsIdVal → Bool
  | JsIdVal.int a, JsIdVal.int b => a == b
  | JsIdVal.str a, JsIdVal.str b => a == b
  | _, _ => false

/-- A stored todo record. Besides `id`, each field is optional: a field that
was absent (`undefined`) in the creating or updating request body is absent
in the stored record. -/
structure Todo where
  id : JsIdVal
  title : Option String
  description : Option String
  dueDate : Option String
  completed : Option Bool
  priority : Option Int
  deriving DecidableEq, Repr

/-- The five fields destructured from a request body by the create and
update handlers (`const \x7b title, description, dueDate, completed, priority \x7d
= req.body`); a field missing from the JSON body destructures to
`undefined`, modelled as `none`. -/
structure ReqBody where
  title : Option String
  description : Option String
  dueDate : Option String
  completed : Option Bool
  priority : Option Int
  deriving DecidableEq, Repr

/-- JavaScript truthiness of the destructured `title` field (a string or
`undefined`): `undefined` and the empty string are falsy, every other
string is truthy. -/
def truthy : Option String → Bool
  | none => false
  | some s => !(s == "")

/-- The JSON body of a response: a list of todos, a single todo, or an
object with a single `message` field. -/
inductive RespBody where
  | todos (ts : List Todo)
  | todo (t : Todo)
  | message (m : String)
  deriving DecidableEq, Repr

/-- An HTTP response: status code plus JSON body. -/
structure Resp where
  status : Nat
  body : RespBody
  deriving DecidableEq, Repr

/-- JavaScript `Array.prototype.find`: the first element satisfying the
predicate, scanning left to right; `undefined` (here `none`) if no element
matches. -/
def jsFind {α : Type} (p : α → Bool) : List α → Option α
  | [] => none
  | x :: xs => if p x then some x else jsFind p xs

/-- JavaScript `Array.prototype.findIndex`: the index of the first element
satisfying the predicate; `-1` (here `none`) if no element matches. -/
def jsFindIndex {α : Type} (p : α → Bool) : List α → Option Nat
  | [] => none
  | x :: xs => if p x then some 0 else (jsFindIndex p xs).map (fun i => i + 1)

/-- Numeric value of a nonempty list of decimal digit characters. -/
def digitsVal (ds : List Char) : Int :=
  List.foldl (fun a c => a * 10 + ((c.toNat : Int) - 48)) 0 ds

/-- Helper for `jsParseInt`: take the longest leading run of decimal
digits; if it is empty the input is non-numeric and the result is `NaN`,
otherwise the result is the (possibly negated) numeric value. -/
def parseDigits (cs : List Char) (neg : Bool) : JsIdVal :=
  let ds := List.takeWhile Char.isDigit cs
  if ds.isEmpty then JsIdVal.nan
  else JsIdVal.int (if neg then -(digitsVal ds) else digitsVal ds)

/-- Model of JavaScript `parseInt` as applied to path parameters: skip
leading whitespace, accept an optional sign, then read the longest leading
run of decimal digits; if there is none the result is `NaN`. (Radix
prefixes such as `0x` are not modelled; no claim involves them.) -/
def jsParseInt (s : String) : JsIdVal :=
  match List.dropWhile Char.isWhitespace s.toList with
  | '-' :: rest => parseDigits rest true
  | '+' :: rest => parseDigits rest false
  | rest => parseDigits rest false

/-- The record the in-memory store is seeded with; note its `id` is the
string `"123"`, not a number. -/
def seedTodo : Todo :=
  ⟨JsIdVal.str "123",
   some "Play Red Dead Redemption 2",
   some "Really interesting game.",
   some "Sat Dec 10 2022 04:08:42 GMT+0000 (Coordinated Universal Time)",
   some false,
   some 3⟩

/-- The initial state of the `todos` array. -/
def initialTodos : List Todo := [seedTodo]

/-- The object literal `\x7b id, title, description, dueDate, completed,
priority \x7d` built by the create and update handlers from the destructured
request body and an id. -/
def todoOfBody (id : JsIdVal) (b : ReqBody) : Todo :=
  ⟨id, b.title, b.description, b.dueDate, b.completed, b.priority⟩

/-- Handler for `GET /api/todo`: respond 200 with the whole array; the
store is not modified. -/
def getAllTodos (todos : List Todo) : Resp × List Todo :=
  (⟨200, RespBody.todos todos⟩, todos)

/-- Handler for `GET /api/todo/:id`, taking the already-parsed path
parameter: find the first todo whose `id` is strictly equal to it; respond
404 `"Todo not found"` if there is none, otherwise 200 with the todo. The
store is not modified. -/
def getTodoById (todos : List Todo) (pid : JsIdVal) : Resp × List Todo :=
  match jsFind (fun t => jsStrictEq t.id pid) todos with
  | none => (⟨404, RespBody.message "Todo not found"⟩, todos)
  | some t => (⟨200, RespBody.todo t⟩, todos)

/-- Handler for `POST /api/todo`: if the body's `title` is falsy, respond
400 `"Title is required"` and leave the store unchanged; otherwise build a
new todo with `id = todos.length + 1`, push it, and respond 201 with it. -/
def createTodo (todos : List Todo) (b : ReqBody) : Resp × List Todo :=
  if !(truthy b.title) then
    (⟨400, RespBody.message "Title is required"⟩, todos)
  else
    let newTodo := todoOfBody (JsIdVal.int ((todos.length : Int) + 1)) b
    (⟨201, RespBody.todo newTodo⟩, todos ++ [newTodo])

/-- Handler for `PUT /api/todo/:id`, taking the already-parsed path
parameter: find the index of the first todo whose `id` is strictly equal to
it; respond 404 `"Todo not found"` if there is none, otherwise replace the
record at that index wholesale with one built from the request body and the
parsed path id, and respond 200 with the replacement. -/
def updateTodo (todos : List Todo) (pid : JsIdVal) (b : ReqBody) :
    Resp × List Todo :=
  match jsFindIndex (fun t => jsStrictEq t.id pid) todos with
  | none => (⟨404, RespBody.message "Todo not found"⟩, todos)
  | some i =>
    let updatedTodo := todoOfBody pid b
    (⟨200, RespBody.todo updatedTodo⟩, todos.set i updatedTodo)

/-- Handler for `DELETE /api/todo/:id`, taking the already-parsed path
parameter: find the index of the first todo whose `id` is strictly equal to
it; respond 404 `"Todo not found"` if there is none, otherwise splice that
one element out and respond 200 with `"Todo deleted"`. -/
def deleteTodo (todos : List Todo) (pid : JsIdVal) : Resp × List Todo :=
  match jsFindIndex (fun t => jsStrictEq t.id pid) todos with
  | none => (⟨404, RespBody.message "Todo not found"⟩, todos)
  | some i => (⟨200, RespBody.message "Todo deleted"⟩, todos.eraseIdx i)

/-- Sample request body used in concrete instances. -/
def bodyA : ReqBody := ReqBody.mk (some "A") none none none none

/-- Sample request body used in concrete instances. -/
def bodyB : ReqBody := ReqBody.mk (some "B") none none none none

/-- Sample request body used in concrete instances. -/
def bodyC : ReqBody := ReqBody.mk (some "C") none none none none

/-- If no element of a list satisfies the predicate, `find` comes back
empty. -/
theorem jsFind_eq_none {α : Type} (p : α → Bool) (l : List α)
    (h : ∀ t ∈ l, p t = false) : jsFind p l = none := by
  induction l with
  | nil => rfl
  | cons x xs ih =>
    simp only [jsFind, h x (List.mem_cons_self x xs)]
    exact ih (fun t ht => h t (List.mem_cons_of_mem x ht))

/-- If no element of a list satisfies the predicate, `findIndex` comes back
empty. -/
theorem jsFindIndex_eq_none {α : Type} (p : α → Bool) (l : List α)
    (h : ∀ t ∈ l, p t = false) : jsFindIndex p l = none := by
  induction l with
  | nil => rfl
  | cons x xs ih =>
    simp only [jsFindIndex, h x (List.mem_cons_self x xs)]
    simp [ih (fun t ht => h t (List.mem_cons_of_mem x ht))]

/-- `find` over an append skips a first block none of whose elements
match. -/
theorem jsFind_append {α : Type} (p : α → Bool) (xs ys : List α)
    (h : ∀ t ∈ xs, p t = false) :
    jsFind p (xs ++ ys) = jsFind p ys := by
  induction xs with
  | nil => rfl
  | cons x l ih =>
    simp only [List.cons_append, jsFind, h x (List.mem_cons_self x l)]
    exact ih (fun t ht => h t (List.mem_cons_of_mem x ht))

/-- An index returned by `findIndex` is in range. -/
theorem jsFindIndex_lt_length {α : Type} {p : α → Bool} {l : List α} {i : Nat}
    (h : jsFindIndex p l = some i) : i < l.length := by
  induction l generalizing i with
  | nil => simp [jsFindIndex] at h
  | cons x xs ih =>
    simp only [jsFindIndex] at h
    by_cases hp : p x
    · simp [hp] at h
      simp [← h]
    · simp [hp, Option.map_eq_some'] at h
      obtain ⟨j, hj, rfl⟩ := h
      simpa [Nat.succ_lt_succ_iff] using ih hj

/-- The element sitting at an index returned by `findIndex` satisfies the
predicate. -/
theorem jsFindIndex_found {α : Type} {p : α → Bool} {l : List α} {i : Nat}
    (h : jsFindIndex p l = some i) :
    ∃ t, l[i]? = some t ∧ p t = true := by
  induction l generalizing i with
  | nil => simp [jsFindIndex] at h
  | cons x xs ih =>
    simp only [jsFindIndex] at h
    by_cases hp : p x
    · simp [hp] at h
      exact ⟨x, by simp [← h], hp⟩
    · simp [hp, Option.map_eq_some'] at h
      obtain ⟨j, hj, rfl⟩ := h
      obtain ⟨t, ht, hpt⟩ := ih hj
      exact ⟨t, by simpa using ht, hpt⟩

/-- `findIndex` returns the FIRST matching index: everything strictly
before it fails the predicate. -/
theorem jsFindIndex_first {α : Type} {p : α → Bool} {l : List α} {i : Nat}
    (h : jsFindIndex p l = some i) :
    ∀ j, j < i → ∀ u, l[j]? = some u → p u = false := by
  induction l generalizing i with
  | nil => simp [jsFindIndex] at h
  | cons x xs ih =>
    simp only [jsFindIndex] at h
    by_cases hp : p x
    · simp [hp] at h
      intro j hj u hu
      exact absurd hj (by omega)
    · simp [hp, Option.map_eq_some'] at h
      obtain ⟨k, hk, rfl⟩ := h
      intro j hj u hu
      cases j with
      | zero =>
        simp at hu
        subst hu
        simpa using hp
      | succ j =>
        simp at hu
        exact ih hk j (Nat.lt_of_succ_lt_succ hj) u hu

/-- A found element: `find` returns the first element matching the
predicate, together with its position. -/
theorem jsFind_spec {α : Type} {p : α → Bool} {l : List α} {t : α}
    (h : jsFind p l = some t) :
    ∃ i : Nat, l[i]? = some t ∧ p t = true ∧
      ∀ j, j < i → ∀ u, l[j]? = some u → p u = false := by
  induction l generalizing t with
  | nil => simp [jsFind] at h
  | cons x xs ih =>
    simp only [jsFind] at h
    by_cases hp : p x
    · simp [hp] at h
      subst h
      exact ⟨0, by simp, hp, fun j hj => absurd hj (by omega)⟩
    · simp [hp] at h
      obtain ⟨i, hi, hpt, hfirst⟩ := ih h
      refine ⟨i + 1, by simpa using hi, hpt, ?_⟩
      intro j hj u hu
      cases j with
      | zero =>
        simp at hu
        subst hu
        simpa using hp
      | succ j =>
        simp at hu
        exact hfirst j (Nat.lt_of_succ_lt_succ hj) u hu

/-- Binder-free characterisation of a successful `findIndex`: the index is
in range, the element there matches, and every element strictly before it
fails the predicate. -/
theorem jsFindIndex_spec {α : Type} {p : α → Bool} {l : List α} {i : Nat}
    (h : jsFindIndex p l = some i) :
    i < l.length ∧ (l[i]?.any p) = true ∧
      ((l.take i).all fun u => !(p u)) = true := by
  induction l generalizing i with
  | nil => simp [jsFindIndex] at h
  | cons x xs ih =>
    simp only [jsFindIndex] at h
    by_cases hp : p x
    · simp [hp] at h
      simp [← h, hp]
    · simp [hp, Option.map_eq_some'] at h
      obtain ⟨k, hk, rfl⟩ := h
      obtain ⟨h1, h2, h3⟩ := ih hk
      refine ⟨by simpa [Nat.succ_lt_succ_iff] using h1, by simpa using h2, ?_⟩
      simp [hp, h3]

/-- Converse direction used for the get-by-id claim: if position `i` holds
a matching element and everything before position `i` fails the predicate,
then `find` returns exactly that element. -/
theorem jsFind_eq_of_first {α : Type} {p : α → Bool} {l : List α} {i : Nat}
    {t : α} (h1 : l[i]? = some t) (h2 : p t = true)
    (h3 : ((l.take i).all fun u => !(p u)) = true) :
    jsFind p l = some t := by
  induction l generalizing i with
  | nil => simp at h1
  | cons x xs ih =>
    cases i with
    | zero =>
      simp at h1
      subst h1
      simp [jsFind, h2]
    | succ k =>
      simp at h1
      simp [List.take_succ_cons] at h3
      obtain ⟨hx, h3'⟩ := h3
      simp [jsFind, hx]
      refine ih h1 ?_
      simp only [List.all_eq_true]
      intro u hu
      simp [h3' u hu]

/-- The result of `parseDigits` is a number or `NaN`, never a string. -/
theorem parseDigits_shape (cs : List Char) (neg : Bool) :
    (∃ n : Int, parseDigits cs neg = JsIdVal.int n) ∨
      parseDigits cs neg = JsIdVal.nan := by
  unfold parseDigits
  by_cases h : (List.takeWhile Char.isDigit cs).isEmpty
  · right
    simp [h]
  · left
    exact ⟨if neg then -(digitsVal (List.takeWhile Char.isDigit cs))
           else digitsVal (List.takeWhile Char.isDigit cs), by simp [h]⟩

/-- The result of `parseInt` is a number or `NaN`, never a string. -/
theorem jsParseInt_shape (s : String) :
    (∃ n : Int, jsParseInt s = JsIdVal.int n) ∨ jsParseInt s = JsIdVal.nan := by
  unfold jsParseInt
  split
  · apply parseDigits_shape
  · apply parseDigits_shape
  · apply parseDigits_shape

/-- A string-valued stored id is never strictly equal to the result of
`parseInt`, whatever the input string was. -/
theorem jsStrictEq_str_parseInt (q : String) (s : String) :
    jsStrictEq (JsIdVal.str q) (jsParseInt s) = false := by
  rcases jsParseInt_shape s with ⟨n, h⟩ | h <;> rw [h] <;> rfl

/-- When no stored id matches, get-by-id answers 404 `"Todo not found"`
and leaves the store unchanged. -/
theorem getTodoById_notFound (todos : List Todo) (pid : JsIdVal)
    (h : ∀ t ∈ todos, jsStrictEq t.id pid = false) :
    getTodoById todos pid =
      (⟨404, RespBody.message "Todo not found"⟩, todos) := by
  unfold getTodoById
  rw [jsFind_eq_none _ _ h]

/-- When no stored id matches, update answers 404 `"Todo not found"` and
leaves the store unchanged. -/
theorem updateTodo_notFound (todos : List Todo) (pid : JsIdVal) (b : ReqBody)
    (h : ∀ t ∈ todos, jsStrictEq t.id pid = false) :
    updateTodo todos pid b =
      (⟨404, RespBody.message "Todo not found"⟩, todos) := by
  unfold updateTodo
  rw [jsFindIndex_eq_none _ _ h]

/-- When no stored id matches, delete answers 404 `"Todo not found"` and
leaves the store unchanged. -/
theorem deleteTodo_notFound (todos : List Todo) (pid : JsIdVal)
    (h : ∀ t ∈ todos, jsStrictEq t.id pid = false) :
    deleteTodo todos pid =
      (⟨404, RespBody.message "Todo not found"⟩, todos) := by
  unfold deleteTodo
  rw [jsFindIndex_eq_none _ _ h]

/-- C10: for every state of the collection, `GET /api/todo` returns status
200 with the full sequence of records in insertion order, unmodified; in
particular, on a fresh start it returns exactly the one seeded record. -/
theorem list_returns_all_in_order :
    (∀ todos : List Todo,
      getAllTodos todos = (⟨200, RespBody.todos todos⟩, todos)) ∧
    getAllTodos initialTodos = (⟨200, RespBody.todos [seedTodo]⟩, [seedTodo]) :=
  ⟨fun _ => rfl, rfl⟩

/-- C5: for every state of the collection, a POST whose body has an absent
or falsy title (including the empty string) returns 400 with message
`"Title is required"` and leaves the collection unchanged, in particular its
length. -/
theorem create_falsy_title_rejected (todos : List Todo) (b : ReqBody)
    (h : truthy b.title = false) :
    createTodo todos b = (⟨400, RespBody.message "Title is required"⟩, todos) ∧
    (createTodo todos b).2.length = todos.length := by
  have hc : createTodo todos b =
      (⟨400, RespBody.message "Title is required"⟩, todos) := by
    simp [createTodo, h]
  exact ⟨hc, by rw [hc]⟩

/-- Witness for C5 at the empty-string title on the seeded store. -/
theorem create_falsy_title_rejected_witness :
    truthy (ReqBody.mk (some "") none none none none).title = false ∧
    (createTodo initialTodos (ReqBody.mk (some "") none none none none) =
        (⟨400, RespBody.message "Title is required"⟩, initialTodos) ∧
      (createTodo initialTodos
          (ReqBody.mk (some "") none none none none)).2.length =
        initialTodos.length) :=
  ⟨by decide,
   create_falsy_title_rejected initialTodos
     (ReqBody.mk (some "") none none none none) (by decide)⟩

/-- C6: for every state of the collection, a POST whose body has a truthy
title assigns `id = currentLength + 1`, appends a record copying the five
payload fields verbatim (omitted fields stay absent), leaves every
pre-existing record unchanged in place, and responds 201 with the created
record. -/
theorem create_appends_verbatim (todos : List Todo) (b : ReqBody)
    (h : truthy b.title = true) :
    createTodo todos b =
      (⟨201, RespBody.todo
          (todoOfBody (JsIdVal.int ((todos.length : Int) + 1)) b)⟩,
        todos ++ [todoOfBody (JsIdVal.int ((todos.length : Int) + 1)) b]) ∧
    (todos ++
        [todoOfBody (JsIdVal.int ((todos.length : Int) + 1)) b]).take
        todos.length = todos := by
  constructor
  · simp [createTodo, h]
  · exact List.take_left todos _

/-- Witness for C6: posting title `"X"` to the seeded store. -/
theorem create_appends_verbatim_witness :
    truthy (ReqBody.mk (some "X") none none none none).title = true ∧
    (createTodo initialTodos (ReqBody.mk (some "X") none none none none) =
        (⟨201, RespBody.todo
            (todoOfBody (JsIdVal.int ((initialTodos.length : Int) + 1))
              (ReqBody.mk (some "X") none none none none))⟩,
          initialTodos ++
            [todoOfBody (JsIdVal.int ((initialTodos.length : Int) + 1))
              (ReqBody.mk (some "X") none none none none)]) ∧
      (initialTodos ++
          [todoOfBody (JsIdVal.int ((initialTodos.length : Int) + 1))
            (ReqBody.mk (some "X") none none none none)]).take
          initialTodos.length = initialTodos) :=
  ⟨by decide,
   create_appends_verbatim initialTodos
     (ReqBody.mk (some "X") none none none none) (by decide)⟩

/-- C4: for every collection containing a record with the requested id,
PUT replaces the record at that position entirely with a record built from
exactly the five payload fields plus the path id — fields omitted from the
payload are absent afterwards, nothing is retained from the old record —
and responds 200 with the updated record. -/
theorem update_replaces_wholesale (todos : List Todo) (pid : JsIdVal)
    (b : ReqBody) (i : Nat)
    (h : jsFindIndex (fun t => jsStrictEq t.id pid) todos = some i) :
    updateTodo todos pid b =
      (⟨200, RespBody.todo (todoOfBody pid b)⟩,
        todos.set i (todoOfBody pid b)) ∧
    (todos.set i (todoOfBody pid b))[i]? = some (todoOfBody pid b) := by
  have hlt := (jsFindIndex_spec h).1
  constructor
  · unfold updateTodo
    rw [h]
  · exact List.getElem?_set_eq_of_lt _ hlt

/-- Witness for C4: updating the only record, whose stored description is
dropped because the new payload omits it. -/
theorem update_replaces_wholesale_witness :
    jsFindIndex (fun t => jsStrictEq t.id (JsIdVal.int 1))
      [todoOfBody (JsIdVal.int 1)
        (ReqBody.mk (some "old") (some "d") none none none)] = some 0 ∧
    (updateTodo
        [todoOfBody (JsIdVal.int 1)
          (ReqBody.mk (some "old") (some "d") none none none)]
        (JsIdVal.int 1) (ReqBody.mk (some "new") none none none none) =
      (⟨200, RespBody.todo
          (todoOfBody (JsIdVal.int 1)
            (ReqBody.mk (some "new") none none none none))⟩,
        List.set
          [todoOfBody (JsIdVal.int 1)
            (ReqBody.mk (some "old") (some "d") none none none)] 0
          (todoOfBody (JsIdVal.int 1)
            (ReqBody.mk (some "new") none none none none))) ∧
    (List.set
        [todoOfBody (JsIdVal.int 1)
          (ReqBody.mk (some "old") (some "d") none none none)] 0
        (todoOfBody (JsIdVal.int 1)
          (ReqBody.mk (some "new") none none none none)))[0]? =
      some (todoOfBody (JsIdVal.int 1)
        (ReqBody.mk (some "new") none none none none))) :=
  ⟨by decide,
   update_replaces_wholesale
     [todoOfBody (JsIdVal.int 1)
       (ReqBody.mk (some "old") (some "d") none none none)]
     (JsIdVal.int 1) (ReqBody.mk (some "new") none none none none) 0
     (by decide)⟩

/-- C7: for every state of the collection and every parsed path parameter
matching no stored id (non-numeric input parses to `NaN`, which matches
nothing), GET, PUT and DELETE on `/api/todo/:id` each return 404 with body
`"Todo not found"` and leave the collection unchanged. -/
theorem id_miss_404_all (todos : List Todo) (pid : JsIdVal) (b : ReqBody)
    (h : (todos.all fun t => !(jsStrictEq t.id pid)) = true) :
    getTodoById todos pid =
      (⟨404, RespBody.message "Todo not found"⟩, todos) ∧
    updateTodo todos pid b =
      (⟨404, RespBody.message "Todo not found"⟩, todos) ∧
    deleteTodo todos pid =
      (⟨404, RespBody.message "Todo not found"⟩, todos) := by
  have h' : ∀ t ∈ todos, jsStrictEq t.id pid = false := by
    intro t ht
    simpa using List.all_eq_true.mp h t ht
  exact ⟨getTodoById_notFound todos pid h',
    updateTodo_notFound todos pid b h',
    deleteTodo_notFound todos pid h'⟩

/-- Witness for C7 at the non-numeric path parameter `"xyz"`, which parses
to `NaN`, against a store holding one numeric-id record. -/
theorem id_miss_404_all_witness :
    ((([todoOfBody (JsIdVal.int 1) bodyA]).all
        fun t => !(jsStrictEq t.id (jsParseInt "xyz"))) = true) ∧
    (getTodoById [todoOfBody (JsIdVal.int 1) bodyA] (jsParseInt "xyz") =
        (⟨404, RespBody.message "Todo not found"⟩,
          [todoOfBody (JsIdVal.int 1) bodyA]) ∧
      updateTodo [todoOfBody (JsIdVal.int 1) bodyA] (jsParseInt "xyz") bodyB =
        (⟨404, RespBody.message "Todo not found"⟩,
          [todoOfBody (JsIdVal.int 1) bodyA]) ∧
      deleteTodo [todoOfBody (JsIdVal.int 1) bodyA] (jsParseInt "xyz") =
        (⟨404, RespBody.message "Todo not found"⟩,
          [todoOfBody (JsIdVal.int 1) bodyA])) :=
  ⟨by decide,
   id_miss_404_all [todoOfBody (JsIdVal.int 1) bodyA] (jsParseInt "xyz")
     bodyB (by decide)⟩

/-- C8: for every collection containing a record with the requested id,
DELETE removes exactly one record — the first whose id matches, everything
before it failing the match — every other record retains its relative
order (the remaining sequence is the part before the removed record
followed by the part after it), and the response is 200 with
`"Todo deleted"`. -/
theorem delete_removes_first_match (todos : List Todo) (pid : JsIdVal)
    (i : Nat)
    (h : jsFindIndex (fun t => jsStrictEq t.id pid) todos = some i) :
    deleteTodo todos pid =
      (⟨200, RespBody.message "Todo deleted"⟩,
        todos.take i ++ todos.drop (i + 1)) ∧
    (todos.take i ++ todos.drop (i + 1)).length + 1 = todos.length ∧
    (todos[i]?.any fun t => jsStrictEq t.id pid) = true ∧
    ((todos.take i).all fun u => !(jsStrictEq u.id pid)) = true := by
  obtain ⟨hlt, hmatch, hbefore⟩ := jsFindIndex_spec h
  refine ⟨?_, ?_, hmatch, hbefore⟩
  · unfold deleteTodo
    rw [h]
    show ((⟨200, RespBody.message "Todo deleted"⟩ : Resp), todos.eraseIdx i) =
      ((⟨200, RespBody.message "Todo deleted"⟩ : Resp),
        todos.take i ++ todos.drop (i + 1))
    rw [List.eraseIdx_eq_take_drop_succ]
  · rw [List.length_append, List.length_take, List.length_drop]
    omega

/-- Witness for C8: deleting the middle one of three records leaves the
outer two in order. -/
theorem delete_removes_first_match_witness :
    jsFindIndex (fun t => jsStrictEq t.id (JsIdVal.int 2))
      [todoOfBody (JsIdVal.int 1) bodyA, todoOfBody (JsIdVal.int 2) bodyB,
        todoOfBody (JsIdVal.int 3) bodyC] = some 1 ∧
    (deleteTodo
        [todoOfBody (JsIdVal.int 1) bodyA, todoOfBody (JsIdVal.int 2) bodyB,
          todoOfBody (JsIdVal.int 3) bodyC] (JsIdVal.int 2) =
      (⟨200, RespBody.message "Todo deleted"⟩,
        List.take 1
            [todoOfBody (JsIdVal.int 1) bodyA,
              todoOfBody (JsIdVal.int 2) bodyB,
              todoOfBody (JsIdVal.int 3) bodyC] ++
          List.drop 2
            [todoOfBody (JsIdVal.int 1) bodyA,
              todoOfBody (JsIdVal.int 2) bodyB,
              todoOfBody (JsIdVal.int 3) bodyC]) ∧
      (List.take 1
          [todoOfBody (JsIdVal.int 1) bodyA, todoOfBody (JsIdVal.int 2) bodyB,
            todoOfBody (JsIdVal.int 3) bodyC] ++
        List.drop 2
          [todoOfBody (JsIdVal.int 1) bodyA, todoOfBody (JsIdVal.int 2) bodyB,
            todoOfBody (JsIdVal.int 3) bodyC]).length + 1 =
        ([todoOfBody (JsIdVal.int 1) bodyA, todoOfBody (JsIdVal.int 2) bodyB,
          todoOfBody (JsIdVal.int 3) bodyC]).length ∧
      (([todoOfBody (JsIdVal.int 1) bodyA, todoOfBody (JsIdVal.int 2) bodyB,
          todoOfBody (JsIdVal.int 3) bodyC])[1]?.any
          fun t => jsStrictEq t.id (JsIdVal.int 2)) = true ∧
      ((List.take 1
          [todoOfBody (JsIdVal.int 1) bodyA, todoOfBody (JsIdVal.int 2) bodyB,
            todoOfBody (JsIdVal.int 3) bodyC]).all
          fun u => !(jsStrictEq u.id (JsIdVal.int 2))) = true) :=
  ⟨by decide,
   delete_removes_first_match
     [todoOfBody (JsIdVal.int 1) bodyA, todoOfBody (JsIdVal.int 2) bodyB,
       todoOfBody (JsIdVal.int 3) bodyC] (JsIdVal.int 2) 1 (by decide)⟩

/-- C9: for every state of the collection, when position `i` holds a
record whose id strictly equals the parsed path parameter and every record
before position `i` does not match, `GET /api/todo/:id` returns status 200
with exactly that record — the first match in insertion order — and does
not modify the collection. -/
theorem get_returns_first_match (todos : List Todo) (pid : JsIdVal)
    (t : Todo) (i : Nat)
    (h1 : todos[i]? = some t) (h2 : jsStrictEq t.id pid = true)
    (h3 : ((todos.take i).all fun u => !(jsStrictEq u.id pid)) = true) :
    getTodoById todos pid = (⟨200, RespBody.todo t⟩, todos) := by
  unfold getTodoById
  rw [jsFind_eq_of_first h1 h2 h3]

/-- Witness for C9: two records share id 7; GET returns the first. -/
theorem get_returns_first_match_witness :
    ([todoOfBody (JsIdVal.int 7) bodyA,
        todoOfBody (JsIdVal.int 7) bodyB])[0]? =
      some (todoOfBody (JsIdVal.int 7) bodyA) ∧
    jsStrictEq (todoOfBody (JsIdVal.int 7) bodyA).id (JsIdVal.int 7) = true ∧
    ((List.take 0
        [todoOfBody (JsIdVal.int 7) bodyA,
          todoOfBody (JsIdVal.int 7) bodyB]).all
        fun u => !(jsStrictEq u.id (JsIdVal.int 7))) = true ∧
    getTodoById
        [todoOfBody (JsIdVal.int 7) bodyA, todoOfBody (JsIdVal.int 7) bodyB]
        (JsIdVal.int 7) =
      (⟨200, RespBody.todo (todoOfBody (JsIdVal.int 7) bodyA)⟩,
        [todoOfBody (JsIdVal.int 7) bodyA,
          todoOfBody (JsIdVal.int 7) bodyB]) :=
  ⟨by decide, by decide, by decide,
   get_returns_first_match
     [todoOfBody (JsIdVal.int 7) bodyA, todoOfBody (JsIdVal.int 7) bodyB]
     (JsIdVal.int 7) (todoOfBody (JsIdVal.int 7) bodyA) 0 (by decide)
     (by decide) (by decide)⟩

/-- C3: the seed record's id is the string `"123"`; the path parameter
`"123"` parses to the integer 123, which is never strictly equal to the
string id, so GET, PUT and DELETE on `/api/todo/123` — and indeed on every
possible path parameter — return 404 `"Todo not found"` on the fresh store
even though the seed record is present: the seed record is unreachable by
any id-based operation. -/
theorem seed_record_unreachable :
    seedTodo.id = JsIdVal.str "123" ∧
    seedTodo ∈ initialTodos ∧
    jsParseInt "123" = JsIdVal.int 123 ∧
    (∀ s : String, ∀ b : ReqBody,
      getTodoById initialTodos (jsParseInt s) =
        (⟨404, RespBody.message "Todo not found"⟩, initialTodos) ∧
      updateTodo initialTodos (jsParseInt s) b =
        (⟨404, RespBody.message "Todo not found"⟩, initialTodos) ∧
      deleteTodo initialTodos (jsParseInt s) =
        (⟨404, RespBody.message "Todo not found"⟩, initialTodos)) := by
  refine ⟨rfl, by simp [initialTodos], by decide, ?_⟩
  intro s b
  have h : ∀ t ∈ initialTodos, jsStrictEq t.id (jsParseInt s) = false := by
    intro t ht
    simp [initialTodos] at ht
    subst ht
    simpa [seedTodo] using jsStrictEq_str_parseInt "123" s
  exact ⟨getTodoById_notFound _ _ h, updateTodo_notFound _ _ b h,
    deleteTodo_notFound _ _ h⟩

/-- C2: id uniqueness is not an invariant. Starting from the seeded store:
create (id 2), create (id 3), delete id 2 — all successful — and the next
create assigns id 3 again, which another record already holds: afterwards
two records carry id 3. -/
theorem create_after_delete_collides :
    (createTodo initialTodos bodyA).1.status = 201 ∧
    (createTodo (createTodo initialTodos bodyA).2 bodyB).1.status = 201 ∧
    (deleteTodo (createTodo (createTodo initialTodos bodyA).2 bodyB).2
        (JsIdVal.int 2)).1 = ⟨200, RespBody.message "Todo deleted"⟩ ∧
    (createTodo
        (deleteTodo (createTodo (createTodo initialTodos bodyA).2 bodyB).2
          (JsIdVal.int 2)).2 bodyC).1 =
      ⟨201, RespBody.todo (todoOfBody (JsIdVal.int 3) bodyC)⟩ ∧
    List.countP (fun t => jsStrictEq t.id (JsIdVal.int 3))
      (deleteTodo (createTodo (createTodo initialTodos bodyA).2 bodyB).2
        (JsIdVal.int 2)).2 = 1 ∧
    List.countP (fun t => jsStrictEq t.id (JsIdVal.int 3))
      (createTodo
        (deleteTodo (createTodo (createTodo initialTodos bodyA).2 bodyB).2
          (JsIdVal.int 2)).2 bodyC).2 = 2 := by
  decide

/-- C1 counterexample: on a store whose single record already carries id 2,
POST (truthy title) succeeds with 201 and assigns the new record id
`length + 1 = 2` as well, but the subsequent GET on that id returns the
OLD record, which is not the record the POST created — so the round-trip
claim fails at this state. -/
theorem create_then_get_roundtrip_cex :
    (createTodo [todoOfBody (JsIdVal.int 2) bodyB] bodyA).1 =
      ⟨201, RespBody.todo (todoOfBody (JsIdVal.int 2) bodyA)⟩ ∧
    getTodoById (createTodo [todoOfBody (JsIdVal.int 2) bodyB] bodyA).2
        (JsIdVal.int 2) =
      (⟨200, RespBody.todo (todoOfBody (JsIdVal.int 2) bodyB)⟩,
        (createTodo [todoOfBody (JsIdVal.int 2) bodyB] bodyA).2) ∧
    todoOfBody (JsIdVal.int 2) bodyB ≠ todoOfBody (JsIdVal.int 2) bodyA := by
  decide

/-- C1 (amended): for every state of the collection in which no existing
record's id strictly equals `currentLength + 1`, a POST whose body has a
truthy title responds 201 with a record carrying the new integer id
`currentLength + 1`, and a subsequent GET on that id returns that same
record. -/
theorem create_then_get_roundtrip (todos : List Todo) (b : ReqBody)
    (ht : truthy b.title = true)
    (hfresh : (todos.all fun t =>
      !(jsStrictEq t.id (JsIdVal.int ((todos.length : Int) + 1)))) = true) :
    (createTodo todos b).1 =
      ⟨201, RespBody.todo
        (todoOfBody (JsIdVal.int ((todos.length : Int) + 1)) b)⟩ ∧
    getTodoById (createTodo todos b).2
        (JsIdVal.int ((todos.length : Int) + 1)) =
      (⟨200, RespBody.todo
          (todoOfBody (JsIdVal.int ((todos.length : Int) + 1)) b)⟩,
        (createTodo todos b).2) := by
  have hc : createTodo todos b =
      (⟨201, RespBody.todo
          (todoOfBody (JsIdVal.int ((todos.length : Int) + 1)) b)⟩,
        todos ++ [todoOfBody (JsIdVal.int ((todos.length : Int) + 1)) b]) := by
    simp [createTodo, ht]
  have hfresh' : ∀ t ∈ todos,
      (fun t => jsStrictEq t.id (JsIdVal.int ((todos.length : Int) + 1))) t
        = false := by
    intro t htm
    simpa using List.all_eq_true.mp hfresh t htm
  rw [hc]
  refine ⟨rfl, ?_⟩
  unfold getTodoById
  rw [jsFind_append _ _ _ hfresh']
  simp [jsFind, todoOfBody, jsStrictEq]

/-- Witness for C1 (amended): posting to the fresh seeded store, whose
only record's id (the string `"123"`) does not equal length+1 = 2. -/
theorem create_then_get_roundtrip_witness :
    truthy bodyA.title = true ∧
    ((initialTodos.all fun t =>
        !(jsStrictEq t.id
          (JsIdVal.int ((initialTodos.length : Int) + 1)))) = true) ∧
    ((createTodo initialTodos bodyA).1 =
        ⟨201, RespBody.todo
          (todoOfBody (JsIdVal.int ((initialTodos.length : Int) + 1))
            bodyA)⟩ ∧
      getTodoById (createTodo initialTodos bodyA).2
          (JsIdVal.int ((initialTodos.length : Int) + 1)) =
        (⟨200, RespBody.todo
            (todoOfBody (JsIdVal.int ((initialTodos.length : Int) + 1))
              bodyA)⟩,
          (createTodo initialTodos bodyA).2)) :=
  ⟨by decide, by decide,
   create_then_get_roundtrip initialTodos bodyA (by decide) (by decide)⟩
